import Mathlib

/-!
Shallow embedding of the data-ingestion Cloud Function
(`src/data-ingestion/modules/handler.py`, `src/data-ingestion/modules/gcs.py`,
`src/data-ingestion/main.py`).

The remote storage service is modelled by an explicit environment `GCSEnv`:
a store (bucket/object → content) plus boolean oracles saying whether each
remote primitive (blob-reference creation, text read, copy, delete) succeeds
or raises; a raised exception is exactly an oracle answering `false`, and the
Python `try/except` guards become the corresponding `match`/`if` branches.
Every adapter operation returns its result together with the list of remote
calls it attempted (`RemoteCall`, each tagged with its outcome), so that
frame conditions ("no storage call occurs") and the evolution of the store
(`applyCalls`) are provable.
-/

/-- Python `a or b` on `Optional[str]` values: `None` and `""` are falsy. -/
def pyOr (a b : Option String) : Option String :=
  match a with
  | some s => if s = "" then b else some s
  | none => b

/-- Python `a or b` where the right operand is a plain `str`. -/
def pyOrS (a : Option String) (b : String) : String :=
  match a with
  | some s => if s = "" then b else s
  | none => b

/-- ASCII whitespace recognised by Python `str.strip()` (the object names and
contents in this repository are ASCII, so the Unicode extras never matter). -/
def pyIsSpace (c : Char) : Bool :=
  c = ' ' || c = '\t' || c = '\n' || c = '\r' || c = '\x0b' || c = '\x0c'

/-- Python `s.strip()`: drop leading and trailing whitespace. -/
def pyStrip (s : String) : String :=
  String.mk (((s.data.dropWhile pyIsSpace).reverse.dropWhile pyIsSpace).reverse)

/-- Python `s.split('\n')` on the underlying character list: split at every
newline, keeping empty pieces. -/
def splitNlChars : List Char → List (List Char)
  | [] => [[]]
  | c :: cs =>
    if c = '\n' then [] :: splitNlChars cs
    else
      match splitNlChars cs with
      | [] => [[c]]
      | h :: t => (c :: h) :: t

/-- Python `s.split('\n')`. -/
def pySplitNl (s : String) : List String :=
  (splitNlChars s.data).map String.mk

/-- Python `s.rsplit('/', 1)` for a string known to contain `'/'`: split at
the last slash. (For a slash-free string it returns `("", s)`, but the
handler never calls it in that case.) -/
def rsplitSlash (s : String) : String × String :=
  let rev := s.data.reverse
  let suffix := rev.takeWhile (fun c => c != '/')
  match rev.dropWhile (fun c => c != '/') with
  | '/' :: before => (String.mk before.reverse, String.mk suffix.reverse)
  | _ => ("", String.mk suffix.reverse)

/-- handler.py line 29:
`folder_path, blob_path = blob_name.rsplit('/', 1) if '/' in blob_name else ("", blob_name)`. -/
def splitPath (blob_name : String) : String × String :=
  if '/' ∈ blob_name.data then rsplitSlash blob_name else ("", blob_name)

/-- Derived folder path of an object name (everything before the last `/`). -/
def folderPathOf (blob_name : String) : String := (splitPath blob_name).1

/-- Derived file name of an object name (everything after the last `/`). -/
def fileNameOf (blob_name : String) : String := (splitPath blob_name).2

/-- The remote object store: a list of (bucket, object, content) entries. -/
structure Store where
  entries : List (String × String × String)
deriving DecidableEq, Repr

/-- Content of object `o` in bucket `b`, if present. -/
def Store.lookup (s : Store) (b o : String) : Option String :=
  (s.entries.find? (fun e => (e.1 == b) && (e.2.1 == o))).map (fun e => e.2.2)

/-- Remove every entry for object `o` in bucket `b`. -/
def Store.erase (s : Store) (b o : String) : Store :=
  ⟨s.entries.filter (fun e => !((e.1 == b) && (e.2.1 == o)))⟩

/-- Write content `c` for object `o` in bucket `b` (overwriting). -/
def Store.insert (s : Store) (b o c : String) : Store :=
  ⟨(b, o, c) :: (s.erase b o).entries⟩

/-- A remote storage call attempted by the adapter, tagged with whether the
service reported success (`ok = false` models a raised service exception). -/
inductive RemoteCall where
  | read (bucket object : String) (ok : Bool)
  | copy (srcBucket srcObject tgtBucket tgtObject : String) (ok : Bool)
  | delete (bucket object : String) (ok : Bool)
deriving DecidableEq, Repr

/-- The storage service as seen by one invocation: current store contents and
oracles deciding whether each remote primitive succeeds or raises. -/
structure GCSEnv where
  store : Store
  refOk : String → String → Bool
  readOk : String → String → String → Bool
  copyOk : String → String → String → String → Bool
  deleteOk : String → String → Bool

/-- Effect of one (attempted) remote call on the store: failed calls and
reads change nothing; a successful copy duplicates the source content to the
target key; a successful delete removes the source key. -/
def applyCall (s : Store) : RemoteCall → Store
  | .read _ _ _ => s
  | .copy sb so tb tn ok =>
    if ok then
      match s.lookup sb so with
      | some c => s.insert tb tn c
      | none => s
    else s
  | .delete b o ok => if ok then s.erase b o else s

/-- Effect of a call trace on the store. -/
def applyCalls (s : Store) (cs : List RemoteCall) : Store :=
  cs.foldl applyCall s

/-- The copy calls in a trace. -/
def copyCalls (cs : List RemoteCall) : List RemoteCall :=
  cs.filter (fun c => match c with | .copy _ _ _ _ _ => true | _ => false)

/-- The mutating (copy or delete) calls in a trace. -/
def mutationCalls (cs : List RemoteCall) : List RemoteCall :=
  cs.filter (fun c => match c with | .read _ _ _ => false | _ => true)

/-- gcs.py `GCSClient`: the storage adapter, carrying the optional default
bucket/blob names set at construction (the remote client handle itself is
the ambient `GCSEnv`). -/
structure GCSClient where
  bucket_name : Option String
  blob_name : Option String
deriving DecidableEq, Repr

/-- gcs.py `GCSClient._get_validated_names`: argument overrides default via
Python `or`; fails (returns `None`) when either resolved name `is None`. -/
def GCSClient.get_validated_names (self : GCSClient)
    (bucket_name blob_name : Option String) : Option (String × String) :=
  let target_bucket_name := pyOr bucket_name self.bucket_name
  let target_blob_name := pyOr blob_name self.blob_name
  match target_bucket_name, target_blob_name with
  | some b, some n => some (b, n)
  | _, _ => none

/-- gcs.py `GCSClient._get_blob_or_none`: build a blob reference (a purely
local operation, no remote call), `None` if the guarded construction raises. -/
def GCSClient.get_blob_or_none (env : GCSEnv) (bucket_name blob_name : String) :
    Option (String × String) :=
  if env.refOk bucket_name blob_name then some (bucket_name, blob_name) else none

/-- gcs.py `GCSClient.get_blob`. -/
def GCSClient.get_blob (env : GCSEnv) (self : GCSClient)
    (bucket_name blob_name : Option String) : Option (String × String) :=
  match self.get_validated_names bucket_name blob_name with
  | none => none
  | some (b, n) => GCSClient.get_blob_or_none env b n

/-- gcs.py `GCSClient.get_blob_content`: fetch the text content of a blob.
The remote read succeeds iff the object is present and the read oracle allows
it (a `false` oracle models a decode/transient error raised by `blob.open`);
the guarded `try` turns any failure into `None`. Returns the content together
with the attempted remote calls. -/
def GCSClient.get_blob_content (env : GCSEnv) (self : GCSClient)
    (bucket_name blob_name : Option String) (encoding : String := "utf-8") :
    Option String × List RemoteCall :=
  match GCSClient.get_blob env self bucket_name blob_name with
  | none => (none, [])
  | some (b, n) =>
    let result :=
      match env.store.lookup b n with
      | none => none
      | some c => if env.readOk b n encoding then some c else none
    (result, [.read b n result.isSome])

/-- gcs.py `GCSClient.move_blob` lines 118-125: resolve the four names.
Source names go through `_get_validated_names`; the target bucket defaults to
the instance bucket then the resolved source bucket, and the target blob
defaults to the resolved source blob. -/
def GCSClient.move_resolve (self : GCSClient)
    (source_bucket_name source_blob_name target_bucket_name target_blob_name :
      Option String) : Option (String × String × String × String) :=
  match self.get_validated_names source_bucket_name source_blob_name with
  | none => none
  | some (sb, sn) =>
    let tb := pyOrS (pyOr target_bucket_name self.bucket_name) sb
    let tn := pyOrS target_blob_name sn
    some (sb, sn, tb, tn)

/-- gcs.py `GCSClient.move_blob`: copy then delete, guarded by the self-move
check; the `try` block stops at the first failing step and reports `False`. -/
def GCSClient.move_blob (env : GCSEnv) (self : GCSClient)
    (source_bucket_name source_blob_name target_bucket_name target_blob_name :
      Option String) : Bool × List RemoteCall :=
  match self.move_resolve source_bucket_name source_blob_name
      target_bucket_name target_blob_name with
  | none => (false, [])
  | some (sb, sn, tb, tn) =>
    if sn = tn ∧ sb = tb then (false, [])
    else
      if env.copyOk sb sn tb tn then
        if env.deleteOk sb sn then
          (true, [.copy sb sn tb tn true, .delete sb sn true])
        else
          (false, [.copy sb sn tb tn true, .delete sb sn false])
      else (false, [.copy sb sn tb tn false])

/-- handler.py configuration constants. -/
def SOURCE_BUCKET : String := "supply-chain-compensation-analysis-with-nlp"

/-- handler.py configuration constant: accepted source folder. -/
def SOURCE_FOLDER : String := "raw_data"

/-- handler.py configuration constant: relocation target folder. -/
def TARGET_FOLDER : String := "processed_data"

/-- The inbound GCS event payload: the `bucket` and `name` fields, each
possibly absent (`data.get(..., "")` defaults them to `""`); all other
payload fields are ignored by the handler. -/
structure EventData where
  bucket : Option String
  name : Option String
deriving DecidableEq, Repr

/-- Observable outcome of one handler invocation: the remote calls attempted,
and the transformed (split-and-filtered) line list when the processing step
was reached (`raw_data` in the source, used only for logging). -/
structure HandlerResult where
  calls : List RemoteCall
  transformed : Option (List String)
deriving DecidableEq, Repr

/-- handler.py `handle_gcs_event_data`. -/
def handle_gcs_event_data (env : GCSEnv) (data : EventData) : HandlerResult :=
  let bucket_name := data.bucket.getD ""
  let blob_name := data.name.getD ""
  let fp := splitPath blob_name
  let folder_path := fp.1
  let blob_path := fp.2
  if bucket_name ≠ SOURCE_BUCKET then ⟨[], none⟩
  else if folder_path ≠ SOURCE_FOLDER then ⟨[], none⟩
  else
    let gcs_client : GCSClient := ⟨some bucket_name, some blob_name⟩
    let fetched := GCSClient.get_blob_content env gcs_client none none "utf-8"
    match fetched.1 with
    | some blob_data =>
      let raw_data := (pySplitNl blob_data).filter (fun line => pyStrip line ≠ "")
      let target_blob_name := TARGET_FOLDER ++ "/" ++ blob_path
      let mv := GCSClient.move_blob env gcs_client none none
        (some bucket_name) (some target_blob_name)
      ⟨fetched.2 ++ mv.2, some raw_data⟩
    | none => ⟨fetched.2, none⟩

/-- The bucket name the handler extracts from a payload. -/
def bucketOf (data : EventData) : String := data.bucket.getD ""

/-- The object name the handler extracts from a payload. -/
def nameOf (data : EventData) : String := data.name.getD ""

/-- The content fetch the handler performs on a qualifying payload (step 4):
the adapter is constructed with the event names as defaults and queried with
no overrides. -/
def fetchOf (env : GCSEnv) (data : EventData) : Option String × List RemoteCall :=
  GCSClient.get_blob_content env ⟨some (bucketOf data), some (nameOf data)⟩
    none none "utf-8"

/-- An environment in which every remote primitive succeeds. -/
def allOkEnv (s : Store) : GCSEnv :=
  ⟨s, fun _ _ => true, fun _ _ _ => true, fun _ _ _ _ => true, fun _ _ => true⟩

example : pySplitNl "a\n\n b \n" = ["a", "", " b ", ""] := by decide
example : (pySplitNl "a\n\n b \n").filter (fun l => pyStrip l ≠ "") = ["a", " b "] := by decide
example : rsplitSlash "raw_data/x/y.txt" = ("raw_data/x", "y.txt") := by decide
example : splitPath "replies.txt" = ("", "replies.txt") := by decide

/-! ### Helper lemmas: path splitting -/

theorem takeWhile_append_of_all {p : Char → Bool} :
    ∀ (l1 : List Char) (c : Char) (l2 : List Char),
      (∀ a ∈ l1, p a = true) → p c = false →
      (l1 ++ c :: l2).takeWhile p = l1 ∧ (l1 ++ c :: l2).dropWhile p = c :: l2
  | [], c, l2, _, hc => by
    simp [List.takeWhile, List.dropWhile, hc]
  | a :: t, c, l2, h, hc => by
    have ha : p a = true := h a (List.mem_cons_self a t)
    have ih := takeWhile_append_of_all t c l2 (fun x hx => h x (List.mem_cons_of_mem a hx)) hc
    simp [List.takeWhile, List.dropWhile, ha, ih.1, ih.2]

theorem dropWhile_slash_of_mem :
    ∀ {l : List Char}, '/' ∈ l →
      ∃ t, l.dropWhile (fun c => c != '/') = '/' :: t
  | [], h => absurd h (List.not_mem_nil _)
  | a :: t, h => by
    by_cases ha : a = '/'
    · subst ha
      exact ⟨t, by simp [List.dropWhile]⟩
    · have hmem : '/' ∈ t := by
        rcases List.mem_cons.mp h with h1 | h1
        · exact absurd h1.symm ha
        · exact h1
      obtain ⟨t1, ht1⟩ := dropWhile_slash_of_mem hmem
      have hab : (a != '/') = true := by simp [bne_iff_ne, ha]
      exact ⟨t1, by simp [List.dropWhile, hab, ht1]⟩

theorem mk_data_eq (s : String) : String.mk s.data = s := rfl

theorem reverse_split_eq {A t l : List Char} (h : A ++ '/' :: t = l.reverse) :
    l = t.reverse ++ '/' :: A.reverse := by
  have h2 := congrArg List.reverse h
  rw [List.reverse_reverse] at h2
  rw [← h2]
  simp [List.reverse_append]

theorem rsplit_reconstruct (n : String) (h : '/' ∈ n.data) :
    n.data = (rsplitSlash n).1.data ++ '/' :: (rsplitSlash n).2.data ∧
      '/' ∉ (rsplitSlash n).2.data := by
  have hrev : '/' ∈ n.data.reverse := List.mem_reverse.mpr h
  obtain ⟨t, ht⟩ := dropWhile_slash_of_mem hrev
  have hsplit : n.data.reverse.takeWhile (fun c => c != '/') ++ '/' :: t = n.data.reverse := by
    rw [← ht]
    exact List.takeWhile_append_dropWhile _ _
  have hval : rsplitSlash n =
      (String.mk t.reverse, String.mk ((n.data.reverse.takeWhile (fun c => c != '/')).reverse)) := by
    simp only [rsplitSlash, ht]
  constructor
  · rw [hval]
    exact reverse_split_eq hsplit
  · rw [hval]
    intro hmem
    have hmem' : '/' ∈ n.data.reverse.takeWhile (fun c => c != '/') := by
      simpa using (List.mem_reverse.mp (by simpa using hmem))
    have := List.mem_takeWhile_imp hmem'
    simp at this

theorem rsplitSlash_of_append (d1 d2 : String) (h : '/' ∉ d2.data) :
    rsplitSlash (d1 ++ "/" ++ d2) = (d1, d2) := by
  have hdata : (d1 ++ "/" ++ d2).data = d1.data ++ '/' :: d2.data := by
    simp [String.data_append]
  have hall : ∀ a ∈ d2.data.reverse, (a != '/') = true := by
    intro a ha
    have : a ∈ d2.data := List.mem_reverse.mp ha
    simp only [bne_iff_ne, ne_eq, decide_eq_true_eq]
    intro he; exact h (he ▸ this)
  have htw := takeWhile_append_of_all d2.data.reverse '/' d1.data.reverse hall (by simp)
  have hrev : (d1 ++ "/" ++ d2).data.reverse = d2.data.reverse ++ '/' :: d1.data.reverse := by
    rw [hdata]
    simp [List.reverse_append]
  simp only [rsplitSlash, hrev, htw.1, htw.2, List.reverse_reverse, mk_data_eq]

/-- On a qualifying object name the relocation target differs from the
source name: the derived folder would have to be both the source and the
target folder constant. -/
theorem handler_name_ne_target (n : String) (hf : folderPathOf n = SOURCE_FOLDER) :
    n ≠ TARGET_FOLDER ++ "/" ++ fileNameOf n := by
  by_cases hc : '/' ∈ n.data
  · obtain ⟨hrec, hns⟩ := rsplit_reconstruct n hc
    have h1 : (rsplitSlash n).1 = SOURCE_FOLDER := by
      simpa [folderPathOf, splitPath, if_pos hc] using hf
    have hfile : fileNameOf n = (rsplitSlash n).2 := by
      simp [fileNameOf, splitPath, if_pos hc]
    intro he
    have h2 := congrArg rsplitSlash he
    rw [rsplitSlash_of_append TARGET_FOLDER (fileNameOf n) (by rw [hfile]; exact hns)] at h2
    have h3 : TARGET_FOLDER = SOURCE_FOLDER := by
      rw [← h1, h2]
    exact absurd h3 (by decide)
  · intro _
    have h0 : folderPathOf n = "" := by simp [folderPathOf, splitPath, if_neg hc]
    rw [h0] at hf
    exact absurd hf (by decide)

/-- The relocation target name built by the handler is never empty. -/
theorem target_blob_name_ne_empty (x : String) : TARGET_FOLDER ++ "/" ++ x ≠ "" := by
  intro h
  have hl := congrArg String.length h
  rw [String.length_append, String.length_append] at hl
  have h1 : ("/" : String).length = 1 := rfl
  have h0 : ("" : String).length = 0 := rfl
  rw [h1, h0] at hl
  omega

/-! ### Helper lemmas: the store -/

theorem find?_filter_not {α : Type} (p : α → Bool) :
    ∀ l : List α, (l.filter (fun e => !p e)).find? p = none
  | [] => rfl
  | e :: t => by
    rw [List.filter_cons]
    by_cases hpe : p e = true
    · rw [if_neg (by simp [hpe])]
      exact find?_filter_not p t
    · rw [if_pos (by simp [hpe])]
      rw [List.find?_cons_of_neg _ (by simp [hpe])]
      exact find?_filter_not p t

theorem Store.lookup_erase_self (s : Store) (b o : String) :
    (s.erase b o).lookup b o = none := by
  unfold Store.lookup Store.erase
  rw [find?_filter_not]
  rfl

theorem Store.lookup_insert_self (s : Store) (b o c : String) :
    (s.insert b o c).lookup b o = some c := by
  simp [Store.insert, Store.lookup, List.find?]

/-! ### Helper lemmas: adapter operations -/

/-- With both names seeded at construction and no overrides, name validation
resolves to the seeded names. -/
theorem get_validated_names_seeded (b n : String) :
    GCSClient.get_validated_names ⟨some b, some n⟩ none none = some (b, n) := by
  simp [GCSClient.get_validated_names, pyOr]

/-- `get_blob_content` on a fully-seeded adapter: the three possible outcomes
(reference failure, failed read, successful read). -/
theorem get_blob_content_seeded (env : GCSEnv) (b n : String) :
    GCSClient.get_blob_content env ⟨some b, some n⟩ none none "utf-8" =
      if env.refOk b n then
        match env.store.lookup b n with
        | none => (none, [.read b n false])
        | some c =>
          if env.readOk b n "utf-8" then (some c, [.read b n true])
          else (none, [.read b n false])
      else (none, []) := by
  simp only [GCSClient.get_blob_content, GCSClient.get_blob, get_validated_names_seeded,
    GCSClient.get_blob_or_none]
  by_cases hr : env.refOk b n = true
  · simp only [hr, if_true]
    cases hlk : env.store.lookup b n with
    | none => simp
    | some c =>
      by_cases hrd : env.readOk b n "utf-8" = true
      · simp [hrd]
      · simp only [Bool.not_eq_true] at hrd
        simp [hrd]
  · simp only [Bool.not_eq_true] at hr
    simp [hr]

/-- The handler's move call (source names defaulted from the adapter, target
bucket equal to the seeded bucket, non-empty target blob different from the
source blob): both remote steps as dictated by the service oracles. -/
theorem move_blob_handler_call (env : GCSEnv) (b n t : String)
    (ht : t ≠ "") (hnt : n ≠ t) :
    GCSClient.move_blob env ⟨some b, some n⟩ none none (some b) (some t) =
      (env.copyOk b n b t && env.deleteOk b n,
       if env.copyOk b n b t then [.copy b n b t true, .delete b n (env.deleteOk b n)]
       else [.copy b n b t false]) := by
  have hres : GCSClient.move_resolve ⟨some b, some n⟩ none none (some b) (some t) =
      some (b, n, b, t) := by
    simp only [GCSClient.move_resolve, get_validated_names_seeded]
    simp [pyOr, pyOrS, ht]
  simp only [GCSClient.move_blob, hres]
  rw [if_neg (by intro hcontra; exact hnt hcontra.1)]
  by_cases hcp : env.copyOk b n b t = true
  · by_cases hdl : env.deleteOk b n = true
    · simp [hcp, hdl]
    · simp only [Bool.not_eq_true] at hdl
      simp [hcp, hdl]
  · simp only [Bool.not_eq_true] at hcp
    simp [hcp]

/-! ### Helper lemmas: the handler -/

/-- A payload failing either qualification filter makes the handler return
at once: no remote call, no transform. -/
theorem handle_not_qualifying (env : GCSEnv) (data : EventData)
    (h : bucketOf data ≠ SOURCE_BUCKET ∨ folderPathOf (nameOf data) ≠ SOURCE_FOLDER) :
    handle_gcs_event_data env data = ⟨[], none⟩ := by
  simp only [bucketOf, nameOf, folderPathOf] at h
  rcases h with hb | hf
  · simp [handle_gcs_event_data, hb]
  · by_cases hb : data.bucket.getD "" = SOURCE_BUCKET
    · simp [handle_gcs_event_data, hb, hf]
    · simp [handle_gcs_event_data, hb]

/-- On a qualifying payload the handler is the fetch followed (on success)
by the transform and the move call. -/
theorem handle_qualified (env : GCSEnv) (data : EventData)
    (hb : bucketOf data = SOURCE_BUCKET)
    (hf : folderPathOf (nameOf data) = SOURCE_FOLDER) :
    handle_gcs_event_data env data =
      match (fetchOf env data).1 with
      | some blob_data =>
        ⟨(fetchOf env data).2 ++
          (GCSClient.move_blob env ⟨some (bucketOf data), some (nameOf data)⟩ none none
            (some (bucketOf data))
            (some (TARGET_FOLDER ++ "/" ++ fileNameOf (nameOf data)))).2,
         some ((pySplitNl blob_data).filter (fun line => pyStrip line ≠ ""))⟩
      | none => ⟨(fetchOf env data).2, none⟩ := by
  simp only [bucketOf, nameOf, folderPathOf] at hb hf
  simp only [handle_gcs_event_data, fetchOf, bucketOf, nameOf, fileNameOf]
  rw [if_neg (by simp [hb]), if_neg (by simp [hf])]

/-- Qualifying payload, failed fetch: the handler stops after the fetch. -/
theorem handle_fetch_none (env : GCSEnv) (data : EventData)
    (hb : bucketOf data = SOURCE_BUCKET)
    (hf : folderPathOf (nameOf data) = SOURCE_FOLDER)
    (hc : (fetchOf env data).1 = none) :
    handle_gcs_event_data env data = ⟨(fetchOf env data).2, none⟩ := by
  rw [handle_qualified env data hb hf, hc]

/-- Qualifying payload, successful fetch: the handler transforms the content
and issues the move call. -/
theorem handle_fetch_some (env : GCSEnv) (data : EventData) (c : String)
    (hb : bucketOf data = SOURCE_BUCKET)
    (hf : folderPathOf (nameOf data) = SOURCE_FOLDER)
    (hc : (fetchOf env data).1 = some c) :
    handle_gcs_event_data env data =
      ⟨(fetchOf env data).2 ++
        (GCSClient.move_blob env ⟨some (bucketOf data), some (nameOf data)⟩ none none
          (some (bucketOf data))
          (some (TARGET_FOLDER ++ "/" ++ fileNameOf (nameOf data)))).2,
       some ((pySplitNl c).filter (fun line => pyStrip line ≠ ""))⟩ := by
  rw [handle_qualified env data hb hf, hc]

/-- The fetch of a qualifying payload either fails before any remote call or
attempts exactly one read, whose `ok` flag matches the returned content. -/
theorem fetchOf_shape (env : GCSEnv) (data : EventData) :
    fetchOf env data = ((fetchOf env data).1, []) ∨
      fetchOf env data =
        ((fetchOf env data).1,
         [.read (bucketOf data) (nameOf data) (fetchOf env data).1.isSome]) := by
  simp only [fetchOf]
  rw [get_blob_content_seeded]
  by_cases hr : env.refOk (bucketOf data) (nameOf data) = true
  · rw [if_pos hr]
    cases hlk : env.store.lookup (bucketOf data) (nameOf data) with
    | none => right; rfl
    | some c =>
      by_cases hrd : env.readOk (bucketOf data) (nameOf data) "utf-8" = true
      · right; simp [hrd]
      · right; simp [hrd]
  · rw [if_neg hr]; left; rfl

/-- Fetch traces never mutate the store. -/
theorem fetch_trace_no_mutation (env : GCSEnv) (data : EventData) :
    mutationCalls (fetchOf env data).2 = [] ∧
      applyCalls env.store (fetchOf env data).2 = env.store := by
  rcases fetchOf_shape env data with hsh | hsh
  · rw [hsh]
    exact ⟨rfl, rfl⟩
  · rw [hsh]
    exact ⟨rfl, rfl⟩

/-- `move_blob` unfolded, given a successful name resolution. -/
theorem move_blob_eq_of_resolve (env : GCSEnv) (self : GCSClient)
    (sB sO tB tO : Option String) (sb sn tb tn : String)
    (hres : self.move_resolve sB sO tB tO = some (sb, sn, tb, tn)) :
    GCSClient.move_blob env self sB sO tB tO =
      if sn = tn ∧ sb = tb then (false, [])
      else
        if env.copyOk sb sn tb tn then
          if env.deleteOk sb sn then
            (true, [.copy sb sn tb tn true, .delete sb sn true])
          else (false, [.copy sb sn tb tn true, .delete sb sn false])
        else (false, [.copy sb sn tb tn false]) := by
  unfold GCSClient.move_blob
  rw [hres]

/-- `move_blob` unfolded, given a failed name resolution. -/
theorem move_blob_eq_of_resolve_none (env : GCSEnv) (self : GCSClient)
    (sB sO tB tO : Option String)
    (hres : self.move_resolve sB sO tB tO = none) :
    GCSClient.move_blob env self sB sO tB tO = (false, []) := by
  unfold GCSClient.move_blob
  rw [hres]

/-! ### Claims -/

/-- C1: for every notification whose bucket equals `SOURCE_BUCKET`, whose
derived folder path equals `SOURCE_FOLDER`, and whose content fetch returns
text, the handler attempts exactly one relocation, whose target bucket is the
notification's bucket and whose target object is `TARGET_FOLDER ++ "/" ++`
the final `/`-separated segment of the object name. -/
theorem C1_qualifying_event_single_relocation (env : GCSEnv) (data : EventData)
    (c : String)
    (hb : bucketOf data = SOURCE_BUCKET)
    (hf : folderPathOf (nameOf data) = SOURCE_FOLDER)
    (hc : (fetchOf env data).1 = some c) :
    ∃ ok, copyCalls (handle_gcs_event_data env data).calls =
      [RemoteCall.copy (bucketOf data) (nameOf data) (bucketOf data)
        (TARGET_FOLDER ++ "/" ++ fileNameOf (nameOf data)) ok] := by
  refine ⟨env.copyOk (bucketOf data) (nameOf data) (bucketOf data)
    (TARGET_FOLDER ++ "/" ++ fileNameOf (nameOf data)), ?_⟩
  rw [handle_fetch_some env data c hb hf hc]
  have hmv := move_blob_handler_call env (bucketOf data) (nameOf data)
    (TARGET_FOLDER ++ "/" ++ fileNameOf (nameOf data))
    (target_blob_name_ne_empty _) (handler_name_ne_target _ hf)
  rw [hmv]
  simp only [copyCalls, List.filter_append]
  rcases fetchOf_shape env data with hsh | hsh <;> rw [hsh] <;>
    by_cases hcp : env.copyOk (bucketOf data) (nameOf data) (bucketOf data)
      (TARGET_FOLDER ++ "/" ++ fileNameOf (nameOf data)) = true <;>
    simp [hcp]

/-- Witness for C1 at a concrete qualifying event. -/
def c1Store : Store :=
  ⟨[(SOURCE_BUCKET, "raw_data/replies.txt", "hello\nworld\n")]⟩

/-- Concrete qualifying event payload used in witnesses. -/
def c1Data : EventData := ⟨some SOURCE_BUCKET, some "raw_data/replies.txt"⟩

theorem C1_witness :
    ∃ ok, copyCalls (handle_gcs_event_data (allOkEnv c1Store) c1Data).calls =
      [RemoteCall.copy (bucketOf c1Data) (nameOf c1Data) (bucketOf c1Data)
        (TARGET_FOLDER ++ "/" ++ fileNameOf (nameOf c1Data)) ok] :=
  C1_qualifying_event_single_relocation (allOkEnv c1Store) c1Data "hello\nworld\n"
    rfl (by decide) (by decide)

/-- C2: a notification failing the bucket filter or the folder filter (which
includes payloads with missing fields, defaulting to `""`) produces no
storage read, copy or delete call at all, and the store is unchanged. -/
theorem C2_non_qualifying_event_no_calls (env : GCSEnv) (data : EventData)
    (h : bucketOf data ≠ SOURCE_BUCKET ∨ folderPathOf (nameOf data) ≠ SOURCE_FOLDER) :
    handle_gcs_event_data env data = ⟨[], none⟩ ∧
      applyCalls env.store (handle_gcs_event_data env data).calls = env.store := by
  have h1 := handle_not_qualifying env data h
  exact ⟨h1, by rw [h1]; rfl⟩

theorem C2_witness :
    handle_gcs_event_data (allOkEnv ⟨[]⟩) ⟨some "other-bucket", some "raw_data/a.txt"⟩ =
      ⟨[], none⟩ :=
  (C2_non_qualifying_event_no_calls (allOkEnv ⟨[]⟩)
    ⟨some "other-bucket", some "raw_data/a.txt"⟩ (Or.inl (by decide))).1

/-- C3: `move_blob` reports success only when both the copy and the delete
completed without a service error; when the copy succeeds and the delete then
fails it returns `false` with a non-empty call trace (distinguishable from
"nothing attempted", whose trace is empty). -/
theorem C3_move_success_requires_both_steps (env : GCSEnv) (self : GCSClient)
    (sB sO tB tO : Option String) :
    ((GCSClient.move_blob env self sB sO tB tO).1 = true →
      ∃ sb sn tb tn, (GCSClient.move_blob env self sB sO tB tO).2 =
        [RemoteCall.copy sb sn tb tn true, RemoteCall.delete sb sn true])
    ∧ (∀ sb sn tb tn, self.move_resolve sB sO tB tO = some (sb, sn, tb, tn) →
        ¬(sn = tn ∧ sb = tb) →
        env.copyOk sb sn tb tn = true → env.deleteOk sb sn = false →
        GCSClient.move_blob env self sB sO tB tO =
          (false, [RemoteCall.copy sb sn tb tn true, RemoteCall.delete sb sn false])) := by
  constructor
  · intro h
    cases hres : self.move_resolve sB sO tB tO with
    | none =>
      rw [move_blob_eq_of_resolve_none env self sB sO tB tO hres] at h
      simp at h
    | some r =>
      obtain ⟨sb, sn, tb, tn⟩ := r
      rw [move_blob_eq_of_resolve env self sB sO tB tO sb sn tb tn hres] at h ⊢
      by_cases hg : sn = tn ∧ sb = tb
      · rw [if_pos hg] at h; simp at h
      · rw [if_neg hg] at h ⊢
        by_cases hcp : env.copyOk sb sn tb tn = true
        · by_cases hdl : env.deleteOk sb sn = true
          · rw [if_pos hcp, if_pos hdl]
            exact ⟨sb, sn, tb, tn, rfl⟩
          · simp only [Bool.not_eq_true] at hdl
            rw [if_pos hcp, if_neg (by simp [hdl])] at h
            simp at h
        · simp only [Bool.not_eq_true] at hcp
          rw [if_neg (by simp [hcp])] at h
          simp at h
  · intro sb sn tb tn hres hg hcp hdl
    rw [move_blob_eq_of_resolve env self sB sO tB tO sb sn tb tn hres,
      if_neg hg, if_pos hcp, if_neg (by simp [hdl])]

/-- An environment whose delete primitive always fails. -/
def failDeleteEnv : GCSEnv :=
  ⟨⟨[]⟩, fun _ _ => true, fun _ _ _ => true, fun _ _ _ _ => true, fun _ _ => false⟩

theorem C3_witness :
    GCSClient.move_blob failDeleteEnv ⟨some "bkt", some "obj"⟩ none none none (some "tgt") =
      (false, [RemoteCall.copy "bkt" "obj" "bkt" "tgt" true,
               RemoteCall.delete "bkt" "obj" false]) :=
  (C3_move_success_requires_both_steps failDeleteEnv ⟨some "bkt", some "obj"⟩
      none none none (some "tgt")).2
    "bkt" "obj" "bkt" "tgt" rfl (by decide) rfl rfl

/-- C4: a move whose resolved source and target coincide (bucket and object)
returns `false` at once with no remote call. -/
theorem C4_self_move_guard (env : GCSEnv) (self : GCSClient)
    (sB sO tB tO : Option String) (sb sn : String)
    (h : self.move_resolve sB sO tB tO = some (sb, sn, sb, sn)) :
    GCSClient.move_blob env self sB sO tB tO = (false, []) := by
  rw [move_blob_eq_of_resolve env self sB sO tB tO sb sn sb sn h, if_pos ⟨rfl, rfl⟩]

theorem C4_witness :
    GCSClient.move_blob (allOkEnv ⟨[]⟩) ⟨some "bkt", some "obj"⟩ none none none none =
      (false, []) :=
  C4_self_move_guard (allOkEnv ⟨[]⟩) ⟨some "bkt", some "obj"⟩ none none none none
    "bkt" "obj" rfl

/-- C5: on a qualifying notification whose content fetch fails, the handler
completes without any copy or delete call and the store is unchanged. -/
theorem C5_fetch_failure_no_relocation (env : GCSEnv) (data : EventData)
    (hb : bucketOf data = SOURCE_BUCKET)
    (hf : folderPathOf (nameOf data) = SOURCE_FOLDER)
    (hc : (fetchOf env data).1 = none) :
    mutationCalls (handle_gcs_event_data env data).calls = [] ∧
      applyCalls env.store (handle_gcs_event_data env data).calls = env.store := by
  rw [handle_fetch_none env data hb hf hc]
  exact fetch_trace_no_mutation env data

/-- A store without the object the witness event names. -/
def emptyQualStore : Store := ⟨[]⟩

theorem C5_witness :
    mutationCalls (handle_gcs_event_data (allOkEnv emptyQualStore)
        ⟨some SOURCE_BUCKET, some "raw_data/gone.txt"⟩).calls = [] :=
  (C5_fetch_failure_no_relocation (allOkEnv emptyQualStore)
    ⟨some SOURCE_BUCKET, some "raw_data/gone.txt"⟩ rfl (by decide) (by decide)).1

/-- C6: the transform splits the fetched content on the newline character and
keeps, in order, exactly the lines whose stripped form is non-empty; on the
content `"a\n\n b \n"` it yields `["a", " b "]` (inner whitespace kept,
whitespace-only lines dropped). -/
theorem C6_transform_split_and_filter (env : GCSEnv) (data : EventData)
    (c : String)
    (hb : bucketOf data = SOURCE_BUCKET)
    (hf : folderPathOf (nameOf data) = SOURCE_FOLDER)
    (hc : (fetchOf env data).1 = some c) :
    (handle_gcs_event_data env data).transformed =
        some ((pySplitNl c).filter (fun line => pyStrip line ≠ "")) ∧
      (c = "a\n\n b \n" →
        (handle_gcs_event_data env data).transformed = some ["a", " b "]) := by
  have h := handle_fetch_some env data c hb hf hc
  constructor
  · rw [h]
  · intro hceq
    rw [h, hceq]
    show some ((pySplitNl "a\n\n b \n").filter (fun line => pyStrip line ≠ "")) =
      some ["a", " b "]
    decide

/-- Store and event for the C6 witness. -/
def c6Store : Store := ⟨[(SOURCE_BUCKET, "raw_data/sample.txt", "a\n\n b \n")]⟩

/-- Qualifying payload naming the C6 sample object. -/
def c6Data : EventData := ⟨some SOURCE_BUCKET, some "raw_data/sample.txt"⟩

theorem C6_witness :
    (handle_gcs_event_data (allOkEnv c6Store) c6Data).transformed = some ["a", " b "] :=
  (C6_transform_split_and_filter (allOkEnv c6Store) c6Data "a\n\n b \n"
    rfl (by decide) (by decide)).2 rfl

/-- Store and event for C7: one object under `raw_data/`. -/
def c7Store : Store := ⟨[(SOURCE_BUCKET, "raw_data/notes.txt", "hello world")]⟩

/-- The C7 environment: everything present succeeds. -/
def c7Env : GCSEnv := allOkEnv c7Store

/-- The re-delivered notification of C7. -/
def c7Data : EventData := ⟨some SOURCE_BUCKET, some "raw_data/notes.txt"⟩

/-- Counterexample to C7 as stated: the first delivery performs a successful
relocation; re-delivering the same notification does NOT fail at the folder
filter (a filter rejection returns `⟨[], none⟩` with no remote call — see
`handle_not_qualifying` — whereas here the handler proceeds past both filters
and attempts a content read, which fails because the object was moved away). -/
theorem C7_counterexample :
    (handle_gcs_event_data c7Env c7Data).calls =
        [RemoteCall.read SOURCE_BUCKET "raw_data/notes.txt" true,
         RemoteCall.copy SOURCE_BUCKET "raw_data/notes.txt" SOURCE_BUCKET
           "processed_data/notes.txt" true,
         RemoteCall.delete SOURCE_BUCKET "raw_data/notes.txt" true] ∧
      handle_gcs_event_data
          { c7Env with store := applyCalls c7Env.store (handle_gcs_event_data c7Env c7Data).calls }
          c7Data ≠ ⟨[], none⟩ := by
  constructor
  · decide
  · decide

/-- C7 (amended): re-delivering the same notification after a successful
relocation is a no-op — no second relocation occurs and the store is
unchanged — but the mechanism is a failed content fetch (the object is gone
from the source location), not the folder filter: the qualification filters
still pass and the handler attempts exactly one (failed) read. -/
theorem C7_amended_redelivery_noop (env : GCSEnv) (data : EventData) (c : String)
    (hb : bucketOf data = SOURCE_BUCKET)
    (hf : folderPathOf (nameOf data) = SOURCE_FOLDER)
    (hlook : env.store.lookup (bucketOf data) (nameOf data) = some c)
    (href : env.refOk (bucketOf data) (nameOf data) = true)
    (hread : env.readOk (bucketOf data) (nameOf data) "utf-8" = true)
    (hcopy : env.copyOk (bucketOf data) (nameOf data) (bucketOf data)
        (TARGET_FOLDER ++ "/" ++ fileNameOf (nameOf data)) = true)
    (hdel : env.deleteOk (bucketOf data) (nameOf data) = true) :
    handle_gcs_event_data
        { env with store := applyCalls env.store (handle_gcs_event_data env data).calls }
        data =
      ⟨[RemoteCall.read (bucketOf data) (nameOf data) false], none⟩ := by
  have hfetch : fetchOf env data =
      (some c, [.read (bucketOf data) (nameOf data) true]) := by
    simp only [fetchOf]
    rw [get_blob_content_seeded]
    simp [href, hlook, hread]
  have hc1 : (fetchOf env data).1 = some c := by rw [hfetch]
  have hmv := move_blob_handler_call env (bucketOf data) (nameOf data)
    (TARGET_FOLDER ++ "/" ++ fileNameOf (nameOf data))
    (target_blob_name_ne_empty _) (handler_name_ne_target _ hf)
  have h1 : (handle_gcs_event_data env data).calls =
      [RemoteCall.read (bucketOf data) (nameOf data) true,
       RemoteCall.copy (bucketOf data) (nameOf data) (bucketOf data)
         (TARGET_FOLDER ++ "/" ++ fileNameOf (nameOf data)) true,
       RemoteCall.delete (bucketOf data) (nameOf data) true] := by
    rw [handle_fetch_some env data c hb hf hc1]
    show (fetchOf env data).2 ++ _ = _
    rw [hfetch, hmv]
    simp [hcopy, hdel]
  have hs1 : applyCalls env.store (handle_gcs_event_data env data).calls =
      (env.store.insert (bucketOf data)
        (TARGET_FOLDER ++ "/" ++ fileNameOf (nameOf data)) c).erase
        (bucketOf data) (nameOf data) := by
    rw [h1]
    simp [applyCalls, applyCall, hlook]
  have hlk2 : (applyCalls env.store (handle_gcs_event_data env data).calls).lookup
      (bucketOf data) (nameOf data) = none := by
    rw [hs1]
    exact Store.lookup_erase_self _ _ _
  have hfetch2 : fetchOf
      { env with store := applyCalls env.store (handle_gcs_event_data env data).calls }
      data = (none, [.read (bucketOf data) (nameOf data) false]) := by
    simp only [fetchOf]
    rw [get_blob_content_seeded]
    simp [href, hlk2]
  have hc2 : (fetchOf
      { env with store := applyCalls env.store (handle_gcs_event_data env data).calls }
      data).1 = none := by rw [hfetch2]
  rw [handle_fetch_none _ data hb hf hc2, hfetch2]

/-- Store and event for the C7 amended-claim witness. -/
def c7wStore : Store := ⟨[(SOURCE_BUCKET, "raw_data/memo.txt", "abc")]⟩

/-- Qualifying payload naming the C7 witness object. -/
def c7wData : EventData := ⟨some SOURCE_BUCKET, some "raw_data/memo.txt"⟩

theorem C7_amended_witness :
    handle_gcs_event_data
        { allOkEnv c7wStore with
          store := applyCalls (allOkEnv c7wStore).store
            (handle_gcs_event_data (allOkEnv c7wStore) c7wData).calls }
        c7wData =
      ⟨[RemoteCall.read (bucketOf c7wData) (nameOf c7wData) false], none⟩ :=
  C7_amended_redelivery_noop (allOkEnv c7wStore) c7wData "abc"
    rfl (by decide) (by decide) rfl rfl rfl rfl

/-- Counterexample to C8 as stated: with instance defaults
`bucket_name = "bkt"`, `blob_name = "dflt"` and an explicit source object
`"src"`, the omitted `target_blob_name` does NOT fall back to the instance
default `"dflt"`; it resolves to the source object `"src"`, so the move trips
the self-move guard and performs no calls (under the claim it would have
targeted `"dflt"` and attempted a copy). -/
theorem C8_counterexample :
    GCSClient.move_resolve ⟨some "bkt", some "dflt"⟩ (some "bkt") (some "src") none none =
        some ("bkt", "src", "bkt", "src")
      ∧ ("src" : String) ≠ "dflt"
      ∧ GCSClient.move_blob (allOkEnv ⟨[]⟩) ⟨some "bkt", some "dflt"⟩
          (some "bkt") (some "src") none none = (false, []) := by
  refine ⟨rfl, by decide, ?_⟩
  decide

/-- C8 (amended): for `get_blob`, `get_blob_content` and `move_blob`'s source
names, omitted bucket/object arguments fall back to the instance defaults,
and if either resolved source name is still absent the operation fails
immediately (`none` / `(false, [])`) with no remote call; `move_blob`'s
target bucket falls back to the instance bucket default and then to the
resolved source bucket, while its target object falls back to the resolved
source object — not to the instance object default. -/
theorem C8_amended_defaulting (env : GCSEnv) (self : GCSClient)
    (bArg oArg tB tO : Option String) :
    (self.get_validated_names bArg oArg = none →
        GCSClient.get_blob env self bArg oArg = none
      ∧ GCSClient.get_blob_content env self bArg oArg "utf-8" = (none, [])
      ∧ GCSClient.move_blob env self bArg oArg tB tO = (false, []))
    ∧ (bArg = none → oArg = none →
        self.get_validated_names bArg oArg =
          match self.bucket_name, self.blob_name with
          | some b, some n => some (b, n)
          | _, _ => none)
    ∧ (∀ sb sn tb tn, self.move_resolve bArg oArg tB tO = some (sb, sn, tb, tn) →
        tb = pyOrS (pyOr tB self.bucket_name) sb ∧ tn = pyOrS tO sn) := by
  refine ⟨?_, ?_, ?_⟩
  · intro h
    refine ⟨?_, ?_, ?_⟩
    · simp [GCSClient.get_blob, h]
    · simp [GCSClient.get_blob_content, GCSClient.get_blob, h]
    · exact move_blob_eq_of_resolve_none env self bArg oArg tB tO
        (by simp [GCSClient.move_resolve, h])
  · intro hb ho
    subst hb; subst ho
    rfl
  · intro sb sn tb tn h
    unfold GCSClient.move_resolve at h
    cases hv : self.get_validated_names bArg oArg with
    | none => rw [hv] at h; simp at h
    | some r =>
      obtain ⟨vb, vn⟩ := r
      rw [hv] at h
      simp only [Option.some.injEq, Prod.mk.injEq] at h
      obtain ⟨h1, h2, h3, h4⟩ := h
      subst h1; subst h2
      exact ⟨h3.symm, h4.symm⟩

theorem C8_amended_witness :
    GCSClient.move_blob (allOkEnv ⟨[]⟩) ⟨none, none⟩ none none none none = (false, []) :=
  ((C8_amended_defaulting (allOkEnv ⟨[]⟩) ⟨none, none⟩ none none none none).1 rfl).2.2

/-- C9: the handler is a total function of the payload and the service
behaviour — every failure is handled locally and the invocation returns
normally. A payload with an absent `bucket` or `name` field degrades to a
non-match through the qualification filters (no call, no transform), and any
invocation that does not reach the processing step (no transform produced)
performs no mutating storage call and leaves the store unchanged. -/
theorem C9_failures_handled_locally (env : GCSEnv) (data : EventData) :
    ((data.bucket = none ∨ data.name = none) →
        handle_gcs_event_data env data = ⟨[], none⟩)
    ∧ ((handle_gcs_event_data env data).transformed = none →
        mutationCalls (handle_gcs_event_data env data).calls = []
        ∧ applyCalls env.store (handle_gcs_event_data env data).calls = env.store) := by
  constructor
  · intro h
    apply handle_not_qualifying
    rcases h with h | h
    · left
      simp [bucketOf, h]
      decide
    · right
      simp [nameOf, folderPathOf, splitPath, h]
      decide
  · intro h
    by_cases hb : bucketOf data = SOURCE_BUCKET
    · by_cases hf : folderPathOf (nameOf data) = SOURCE_FOLDER
      · cases hcv : (fetchOf env data).1 with
        | some c =>
          rw [handle_fetch_some env data c hb hf hcv] at h
          simp at h
        | none =>
          rw [handle_fetch_none env data hb hf hcv]
          exact fetch_trace_no_mutation env data
      · rw [handle_not_qualifying env data (Or.inr hf)]
        exact ⟨rfl, rfl⟩
    · rw [handle_not_qualifying env data (Or.inl hb)]
      exact ⟨rfl, rfl⟩

theorem C9_witness :
    handle_gcs_event_data (allOkEnv ⟨[]⟩) ⟨none, some "raw_data/x.txt"⟩ = ⟨[], none⟩ :=
  (C9_failures_handled_locally (allOkEnv ⟨[]⟩) ⟨none, some "raw_data/x.txt"⟩).1
    (Or.inl rfl)

/-- C10: an empty-string bucket or object argument is treated exactly like an
omitted one by every adapter operation — Python's falsy `or` chain makes
`""` fall through to the instance default (`pyOr (some "") d = d`), so the
operation resolves to the instance default when one is set and resolves to
absent only when the default is unset too. -/
theorem C10_empty_string_argument_like_omitted (env : GCSEnv) (self : GCSClient)
    (tB tO : Option String) :
    (∀ d : Option String, pyOr (some "") d = d ∧ pyOr none d = d)
    ∧ (∀ oArg, GCSClient.get_blob env self (some "") oArg =
        GCSClient.get_blob env self none oArg)
    ∧ (∀ bArg, GCSClient.get_blob env self bArg (some "") =
        GCSClient.get_blob env self bArg none)
    ∧ (∀ oArg, GCSClient.get_blob_content env self (some "") oArg "utf-8" =
        GCSClient.get_blob_content env self none oArg "utf-8")
    ∧ (∀ bArg, GCSClient.get_blob_content env self bArg (some "") "utf-8" =
        GCSClient.get_blob_content env self bArg none "utf-8")
    ∧ (∀ oArg, GCSClient.move_blob env self (some "") oArg tB tO =
        GCSClient.move_blob env self none oArg tB tO)
    ∧ (∀ bArg, GCSClient.move_blob env self bArg (some "") tB tO =
        GCSClient.move_blob env self bArg none tB tO)
    ∧ (∀ sB sO, GCSClient.move_blob env self sB sO (some "") tO =
        GCSClient.move_blob env self sB sO none tO)
    ∧ (∀ sB sO, GCSClient.move_blob env self sB sO tB (some "") =
        GCSClient.move_blob env self sB sO tB none) :=
  ⟨fun _ => ⟨rfl, rfl⟩, fun _ => rfl, fun _ => rfl, fun _ => rfl, fun _ => rfl,
   fun _ => rfl, fun _ => rfl, fun _ _ => rfl, fun _ _ => rfl⟩
